import Mathlib

/-!
# LOSS-PREV: shallow embedding of the server core

Translation of the decision logic of `src/server/routes.ts` (latest
revision of the route file, plus the `DatabaseStorage` class) into Lean.

Conventions of the embedding:
* JavaScript strings are `String`; an absent (`undefined`) value is
  `Option.none`; JS truthiness of a string is "nonempty".
* JS numbers appearing in the flagging logic are modelled by `JsNum`:
  either NaN, an infinity, or an exact decimal value.  `parseFloat` is
  modelled by `jsParseFloat` (longest numeric prefix, NaN when no digit
  is consumed).
* A parsed CSV row (an object produced by `csv-parse` with
  `columns: true`) is a list of key/value pairs, looked up by key.
* Database effects are explicit state passing over lists; the
  nondeterministic pieces of a created record (timestamps, the
  `T${Date.now()}...` synthesised id) are elided: a synthesised id is
  modelled as `none`, and timestamp columns are not modelled.
-/

/-! ## Small string helpers (JS `includes`, substring search) -/

/-- Whether `pat` occurs at the head of the first argument. -/
def subAt : List Char → List Char → Bool
  | _, [] => true
  | [], _ :: _ => false
  | h :: hs, p :: ps => h == p && subAt hs ps

/-- Does `pat` occur as a contiguous sublist of the second argument? -/
def hasSubList (pat : List Char) : List Char → Bool
  | [] => pat.isEmpty
  | c :: cs => subAt (c :: cs) pat || hasSubList pat cs

/-- Model of JS `String.prototype.includes`: `pat` occurs in `s`. -/
def containsSubstr (s pat : String) : Bool :=
  hasSubList pat.toList s.toList

/-- Model of JS `String.prototype.toLowerCase` (ASCII, char-wise). -/
def jsToLower (s : String) : String :=
  String.mk (s.toList.map Char.toLower)

/-! ## JS numbers and `parseFloat` -/

/-- An exact decimal: the value `m * 10 ^ e`.  This is the (exact)
value denoted by a JS numeric literal parsed by `parseFloat`. -/
structure Dec : Type where
  m : Int
  e : Int
deriving DecidableEq, Repr

/-- The rational value of an exact decimal. -/
def Dec.val (d : Dec) : ℚ :=
  (d.m : ℚ) * (10 : ℚ) ^ d.e

/-- A JS number as produced by `parseFloat`: NaN, ±Infinity, or an
exact decimal value. -/
inductive JsNum : Type
  | nan : JsNum
  | posInf : JsNum
  | negInf : JsNum
  | num (d : Dec) : JsNum
deriving DecidableEq, Repr

/-- JS `a > t` for `a` a parse result and `t` an integer threshold
literal: `NaN > t` is false, `Infinity > t` is true, and a decimal
compares by value (implemented by cross-multiplied integer comparison;
`jsGt_eq_val` below proves this equals the value comparison). -/
def jsGt (a : JsNum) (t : Int) : Bool :=
  match a with
  | .nan => false
  | .posInf => true
  | .negInf => false
  | .num d =>
    match d.e with
    | .ofNat k => decide (t < d.m * (10 : Int) ^ k)
    | .negSucc k => decide (t * (10 : Int) ^ (k + 1) < d.m)

def isJsSpace (c : Char) : Bool :=
  c == ' ' || c == '\t' || c == '\n' || c == '\r'

def digitsVal (ds : List Char) : Nat :=
  ds.foldl (fun a c => a * 10 + (c.toNat - 48)) 0

/-- Model of JS `parseFloat`: skip leading whitespace, optional sign,
`Infinity` or digits with optional fraction and exponent; the longest
valid numeric prefix is taken and the rest ignored; if no digit (and no
`Infinity`) is consumed the result is NaN. -/
def jsParseFloat (s : String) : JsNum :=
  let cs := s.toList.dropWhile isJsSpace
  let sign : Int := match cs with
    | '-' :: _ => -1
    | _ => 1
  let cs1 : List Char := match cs with
    | '+' :: rest => rest
    | '-' :: rest => rest
    | _ => cs
  if subAt cs1 "Infinity".toList then
    if sign = 1 then .posInf else .negInf
  else
    let intDs := cs1.takeWhile Char.isDigit
    let cs2 := cs1.dropWhile Char.isDigit
    let fracDs : List Char := match cs2 with
      | '.' :: rest => rest.takeWhile Char.isDigit
      | _ => []
    let cs3 : List Char := match cs2 with
      | '.' :: rest => rest.dropWhile Char.isDigit
      | _ => cs2
    if intDs.isEmpty && fracDs.isEmpty then .nan
    else
      let expDigits : List Char := match cs3 with
        | 'e' :: '+' :: ds => ds.takeWhile Char.isDigit
        | 'e' :: '-' :: ds => ds.takeWhile Char.isDigit
        | 'e' :: ds => ds.takeWhile Char.isDigit
        | 'E' :: '+' :: ds => ds.takeWhile Char.isDigit
        | 'E' :: '-' :: ds => ds.takeWhile Char.isDigit
        | 'E' :: ds => ds.takeWhile Char.isDigit
        | _ => []
      let expSign : Int := match cs3 with
        | 'e' :: '-' :: _ => -1
        | 'E' :: '-' :: _ => -1
        | _ => 1
      let expVal : Int := if expDigits.isEmpty then 0 else expSign * (digitsVal expDigits : Int)
      let mantissa : Int := digitsVal intDs * (10 : Int) ^ fracDs.length + digitsVal fracDs
      .num ⟨sign * mantissa, expVal - fracDs.length⟩

/-! ## Rows and truthiness -/

/-- A raw row as produced by the CSV parser: column name → string value. -/
def Row : Type := List (String × String)

/-- Look a key up in a row (`row.someKey` / `row['Some Key']`);
`none` is JS `undefined`. -/
def rowGet (r : Row) (k : String) : Option String :=
  (List.find? (fun p => p.1 == k) r).map (fun p => p.2)

/-- Normalise a JS value to its truthy content: `undefined` and the
empty string are falsy. -/
def truthy (o : Option String) : Option String :=
  match o with
  | some v => if v = "" then none else some v
  | none => none

/-- JS `a || b` over possibly-absent strings. -/
def jsOr (a b : Option String) : Option String :=
  match truthy a with
  | some v => some v
  | none => truthy b

/-- JS `a || d` with a literal string default. -/
def jsOrD (a : Option String) (d : String) : String :=
  match truthy a with
  | some v => v
  | none => d

/-! ## Flagging engine (`flagTransaction`, routes.ts latest revision) -/

structure FlagResult : Type where
  isFlagged : Bool
  reason : Option String
deriving DecidableEq, Repr

def suspiciousTypes : List String :=
  ["refund", "void", "no sale", "cancellation", "manual discount"]

/-- The amount-cleaning step of `flagTransaction`:
`parseFloat(gross?.toString().replace(/[$,]/g, '') || '0')`. -/
def stripCurrency (g : String) : String :=
  String.mk (g.toList.filter (fun c => c ≠ '$' && c ≠ ','))

def cleanAmount (gross : Option String) : JsNum :=
  match gross with
  | none => jsParseFloat "0"
  | some g =>
    let c := stripCurrency g
    jsParseFloat (if c = "" then "0" else c)

/-- Core of `flagTransaction` after computing `tranType` and the cleaned
`grossAmount` (routes.ts lines 452–473).  A falsy `tranType`
(`undefined` or `""`) is `none` and skips the suspicious-type block. -/
def flagTransactionCore (tranType : Option String) (grossAmount : JsNum) : FlagResult :=
  match tranType with
  | some t =>
    if suspiciousTypes.contains (jsToLower t) then
      if jsToLower t == "refund" && jsGt grossAmount 50 then
        ⟨true, some "High value refund"⟩
      else if jsToLower t == "void" && jsGt grossAmount 100 then
        ⟨true, some "High value void"⟩
      else if jsToLower t == "no sale" then
        ⟨true, some "No sale transaction"⟩
      else
        ⟨true, some "Suspicious transaction type"⟩
    else if jsGt grossAmount 200 then
      ⟨true, some "High value transaction"⟩
    else
      ⟨false, none⟩
  | none =>
    if jsGt grossAmount 200 then
      ⟨true, some "High value transaction"⟩
    else
      ⟨false, none⟩

/-- Model of `flagTransaction(row)` on a raw row: resolves
`row['Tran Type'] || row.transactionType` and
`row['Gross'] || row.amount`, cleans the amount and applies the core
rules.  (The source also computes `netAmount` the same way from
`row['Net'] || row.amount`; it is never used.) -/
def flagTransaction (r : Row) : FlagResult :=
  let tranType := jsOr (rowGet r "Tran Type") (rowGet r "transactionType")
  let gross := jsOr (rowGet r "Gross") (rowGet r "amount")
  flagTransactionCore tranType (cleanAmount gross)

example : flagTransaction [("transactionType", "Refund"), ("amount", "$75.00")] =
    ⟨true, some "High value refund"⟩ := by decide

example : flagTransaction [("transactionType", "refund"), ("amount", "50")] =
    ⟨true, some "Suspicious transaction type"⟩ := by decide

example : flagTransaction [("type", "refund"), ("amount", "$75.00")] =
    ⟨false, none⟩ := by decide

example : cleanAmount (some "$1,234.56") = JsNum.num ⟨123456, -2⟩ := by decide

example : cleanAmount (some "abc") = JsNum.nan := by decide

example : cleanAmount none = JsNum.num ⟨0, 0⟩ := by decide

/-! ## ModiSoft spreadsheet-dialect parser (`parseModiSoftData`) -/

/-- The positional record schema of the ModiSoft dialect (the 11 named
columns the parser destructures each data row into).  A missing
positional field (`undefined`) is modelled as `""`; both are falsy at
every use site. -/
structure ModiRow : Type where
  tranDate : String
  tranType : String
  tender : String
  gross : String
  discount : String
  tax : String
  net : String
  tipAmount : String
  onlineCharges : String
  cashierName : String
  tranId : String
deriving DecidableEq, Repr

def getCol (r : List String) (i : Nat) : String := r.getD i ""

def mkModiRow (r : List String) : ModiRow :=
  ⟨getCol r 0, getCol r 1, getCol r 2, getCol r 3, getCol r 4, getCol r 5,
   getCol r 6, getCol r 7, getCol r 8, getCol r 9, getCol r 10⟩

/-- The source's combined per-row guard after the header has been found:
`row[0] && row[0] !== 'Tran Date' && !row[0].includes('Sale Transactions')`
followed by `if (!tranDate || !tranType) return` (with `tranDate = row[0]`,
`tranType = row[1]`). -/
def modiKeepRow (r : List String) : Bool :=
  getCol r 0 != "" && getCol r 0 != "Tran Date" &&
    !containsSubstr (getCol r 0) "Sale Transactions" && getCol r 1 != ""

/-- The row loop of `parseModiSoftData`: scan for the header marker (a
row with some field equal to `'Tran Date'`), then emit the kept data
rows in order. -/
def parseModiLoop : Bool → List (List String) → List ModiRow
  | _, [] => []
  | false, r :: rs =>
    if r.contains "Tran Date" then parseModiLoop true rs
    else parseModiLoop false rs
  | true, r :: rs =>
    if modiKeepRow r then mkModiRow r :: parseModiLoop true rs
    else parseModiLoop true rs

/-- Model of `parseModiSoftData` on the row sequence of the converted sheet
(after `csv-parse` with `columns: false, skip_empty_lines, trim`). -/
def parseModiSoftData (rows : List (List String)) : List ModiRow :=
  parseModiLoop false rows

/-- The rows strictly after the first header-marker row (all of them;
empty when no marker row occurs). -/
def dropThroughMarker : List (List String) → List (List String)
  | [] => []
  | r :: rs => if r.contains "Tran Date" then rs else dropThroughMarker rs

/-- Stated from the claim for comparison with `parseModiSoftData`: keep
a post-marker row unless either of its first two positional fields is
empty, its first field still equals the header label, or its first
field contains the section-title string. -/
def specKeepRow (r : List String) : Bool :=
  !(getCol r 0 == "" || getCol r 1 == "") && getCol r 0 != "Tran Date" &&
    !containsSubstr (getCol r 0) "Sale Transactions"

/-- The claim C6 as literally stated (both-empty reading): a row is
excluded only when its first two positional fields are BOTH empty (or
it matches the header label / section title). -/
def claimC6KeepRow (r : List String) : Bool :=
  !(getCol r 0 == "" && getCol r 1 == "") && getCol r 0 != "Tran Date" &&
    !containsSubstr (getCol r 0) "Sale Transactions"

def claimC6Rows (rows : List (List String)) : List ModiRow :=
  ((dropThroughMarker rows).filter claimC6KeepRow).map mkModiRow

/-! ## Upload pipeline (`POST /api/upload/pos`, latest revision) -/

/-- The transaction record built per row by the upload handler.  The
timestamp fields (`date`, `flaggedAt`) and session actor fields are not
modelled; a synthesised `T${Date.now()}...` id is modelled as `none`. -/
structure PosTransaction : Type where
  transactionId : Option String
  transactionType : String
  amount : String
  registerId : String
  employeeName : String
  description : String
  paymentMethod : String
  status : String
  isFlagged : Bool
  flagReason : Option String
deriving DecidableEq, Repr

/-- The `transactionData` record as built in the row loop of the upload handler:
ModiSoft rows (detected by truthy `'Tran Date'` and `'Tran Type'`
fields) and standard CSV rows resolve their fields differently. -/
def buildTransactionData (r : Row) : PosTransaction :=
  let isModiSoft := (truthy (rowGet r "Tran Date")).isSome &&
    (truthy (rowGet r "Tran Type")).isSome
  if isModiSoft then
    { transactionId := truthy (rowGet r "Tran ID")
      transactionType := jsOrD (rowGet r "Tran Type") "sale"
      amount := match truthy (rowGet r "Gross") with
        | some g => stripCurrency g
        | none => "0"
      registerId := "REG001"
      employeeName := jsOrD (rowGet r "Cashier Name") "Unknown"
      description := "Modi soft transaction - " ++ jsOrD (rowGet r "Tender") "Unknown payment"
      paymentMethod := jsOrD (rowGet r "Tender") "cash"
      status := "pending"
      isFlagged := false
      flagReason := none }
  else
    { transactionId := jsOr (rowGet r "transaction_id")
        (jsOr (rowGet r "TransactionID") (rowGet r "id"))
      transactionType := jsOrD (jsOr (rowGet r "transaction_type")
        (jsOr (rowGet r "Type") (rowGet r "type"))) "sale"
      amount := jsOrD (jsOr (rowGet r "amount")
        (jsOr (rowGet r "Amount") (rowGet r "total"))) "0"
      registerId := jsOrD (jsOr (rowGet r "register_id")
        (jsOr (rowGet r "RegisterID") (rowGet r "register"))) "REG001"
      employeeName := jsOrD (jsOr (rowGet r "employee_name")
        (jsOr (rowGet r "Employee") (rowGet r "cashier"))) "Unknown"
      description := jsOrD (rowGet r "description") "POS Transaction"
      paymentMethod := jsOrD (jsOr (rowGet r "payment_method") (rowGet r "tender")) "cash"
      status := "pending"
      isFlagged := false
      flagReason := none }

/-- One iteration of the row loop: flag the raw row; only a flagged row
is persisted (with `isFlagged` and `flagReason` set on the built
record); an unflagged row creates nothing. -/
def processRow (r : Row) : Option PosTransaction :=
  let fr := flagTransaction r
  if fr.isFlagged then
    some { buildTransactionData r with isFlagged := true, flagReason := fr.reason }
  else
    none

/-- The `createdTransactions` list accumulated over all parsed rows. -/
def processRows (rows : List Row) : List PosTransaction :=
  rows.filterMap processRow

inductive UploadOutcome : Type
  | duplicate : UploadOutcome
  | parseFailed (msg : String) : UploadOutcome
  | success : UploadOutcome
deriving DecidableEq, Repr

structure UploadResult : Type where
  outcome : UploadOutcome
  seenHashes : List String
  created : List PosTransaction
deriving DecidableEq, Repr

/-- The `POST /api/upload/pos` handler over the uploaded bytes.  The
content-hash function (`generateFileHash`, SHA-256) and the fallible
parser (`parsePOSData`) are I/O dependencies, passed as parameters; the
module-level `uploadedFileHashes` set is the `seen` list.  Order is the
source's: duplicate check, hash recorded, then parse, then the row
loop. -/
def uploadPos (hashFn : List Nat → String)
    (parseFn : List Nat → Except String (List Row))
    (seen : List String) (fileBytes : List Nat) : UploadResult :=
  let fileHash := hashFn fileBytes
  if fileHash ∈ seen then
    ⟨.duplicate, seen, []⟩
  else
    let seen1 := seen ++ [fileHash]
    match parseFn fileBytes with
    | .error msg => ⟨.parseFailed msg, seen1, []⟩
    | .ok rows => ⟨.success, seen1, processRows rows⟩

/-! ## Storage layer (`DatabaseStorage`, storage.ts) -/

/-- A stored transaction row (the columns used by the operations under
study; timestamp columns are not modelled, `date` is an abstract
ordered stamp). -/
structure DbTransaction : Type where
  id : Nat
  transactionId : String
  date : Nat
  registerId : String
  employeeName : String
  transactionType : String
  amount : String
  status : String
  isFlagged : Bool
  flaggedReason : Option String
deriving DecidableEq, Repr

/-- An `audit_logs` row (shared/schema.ts): `previousStatus` is
nullable and `none` when not populated by the writer. -/
structure AuditLog : Type where
  transactionId : Nat
  action : String
  newStatus : String
  previousStatus : Option String
  performedBy : String
  performedByName : String
  details : String
deriving DecidableEq, Repr

structure StorageState : Type where
  transactions : List DbTransaction
  auditLogs : List AuditLog
deriving DecidableEq, Repr

/-- Model of `DatabaseStorage.createAuditLog`: insert one row. -/
def createAuditLog (st : StorageState) (a : AuditLog) : StorageState :=
  { st with auditLogs := st.auditLogs ++ [a] }

/-- Model of `DatabaseStorage.updateTransactionStatus`: update the matching row
(if any), then unconditionally create one audit log whose `action` and
`newStatus` are the target status and whose `previousStatus` is never
set.  The returned transaction is the first row returned by the
`UPDATE ... RETURNING` (`undefined`, i.e. `none`, when no row
matched) — there is no existence check and no NotFound failure. -/
def updateTransactionStatus (st : StorageState) (id : Nat) (status : String)
    (performedBy performedByName : String) : StorageState × Option DbTransaction :=
  let updated := st.transactions.map
    (fun t => if t.id = id then { t with status := status } else t)
  let returned := updated.find? (fun t => t.id == id)
  let st1 : StorageState := { st with transactions := updated }
  let st2 := createAuditLog st1
    ⟨id, status, status, none, performedBy, performedByName,
      "Transaction status changed to " ++ status⟩
  (st2, returned)

/-- SQL `ilike '%pat%'`: case-insensitive substring match. -/
def ilikeSub (pat field : String) : Bool :=
  containsSubstr (jsToLower field) (jsToLower pat)

/-- The filter conditions of `DatabaseStorage.getTransactions`; an
absent or empty query parameter (`none`) adds no condition. -/
def txMatches (search tType stat : Option String) (t : DbTransaction) : Bool :=
  (match search with
   | none => true
   | some s => ilikeSub s t.employeeName || ilikeSub s t.transactionId ||
       ilikeSub s t.registerId) &&
  (match tType with
   | none => true
   | some ty => t.transactionType == ty) &&
  (match stat with
   | none => true
   | some sv => t.status == sv)

/-- Insert into a date-descending list (model of `orderBy desc(date)`;
the SQL order among equal dates is unspecified, this model keeps the
first-inserted element first). -/
def insertDateDesc (t : DbTransaction) : List DbTransaction → List DbTransaction
  | [] => [t]
  | u :: us => if u.date < t.date then t :: u :: us else u :: insertDateDesc t us

def sortDateDesc : List DbTransaction → List DbTransaction
  | [] => []
  | t :: ts => insertDateDesc t (sortDateDesc ts)

/-- Model of `DatabaseStorage.getTransactions`: filter, order by date
descending, apply `offset`/`limit`, and also return the total count of
all matching rows. -/
def getTransactionsStorage (db : List DbTransaction)
    (search tType stat : Option String) (limit offset : Nat) :
    List DbTransaction × Nat :=
  let matching := db.filter (txMatches search tType stat)
  (((sortDateDesc matching).drop offset).take limit, matching.length)

/-- The latest-revision `GET /api/transactions` route: it passes only
the three filters, so the storage destructuring defaults apply
(`limit = 10`, `offset = 0`). -/
def routeGetTransactions (db : List DbTransaction)
    (search tType stat : Option String) : List DbTransaction × Nat :=
  getTransactionsStorage db search tType stat 10 0

/-! ## Helper lemmas -/

theorem jsGt_eq_val (d : Dec) (t : Int) :
    jsGt (JsNum.num d) t = decide ((t : ℚ) < d.val) := by
  rcases d with ⟨m, e⟩
  cases e with
  | ofNat k =>
    simp only [jsGt, Dec.val]
    rw [decide_eq_decide]
    have hcast : ((m : ℚ)) * (10 : ℚ) ^ (Int.ofNat k) = ((m * 10 ^ k : ℤ) : ℚ) := by
      rw [show (Int.ofNat k) = (k : ℤ) from rfl, zpow_natCast]
      push_cast
      ring
    rw [hcast, Int.cast_lt]
  | negSucc k =>
    simp only [jsGt, Dec.val]
    rw [decide_eq_decide]
    have h10 : (0 : ℚ) < (10 : ℚ) ^ (k + 1) := by positivity
    rw [zpow_negSucc, ← div_eq_mul_inv, lt_div_iff₀ h10]
    have hcast : ((t : ℚ)) * (10 : ℚ) ^ (k + 1) = ((t * 10 ^ (k + 1) : ℤ) : ℚ) := by
      push_cast
      ring
    rw [hcast, Int.cast_lt]

/-! ## Claims -/

/-- C1: the flagging function on a transaction-type string and a cleaned
decimal amount realises exactly the decision table of the spec: a
case-insensitive type in \x7brefund, void, no sale, cancellation, manual
discount\x7d is flagged with reason "High value refund" when the type is
refund and the amount exceeds 50, "High value void" when the type is
void and the amount exceeds 100, "No sale transaction" for no sale, and
"Suspicious transaction type" for every other member of the set
(including refund ≤ 50 and void ≤ 100); a type outside the set is
flagged "High value transaction" exactly when the amount exceeds 200,
and is otherwise not flagged, with no reason. -/
theorem flagTransaction_decision_table (s : String) (d : Dec) :
    flagTransactionCore (some s) (JsNum.num d) =
      (if jsToLower s ∈ suspiciousTypes then
        if jsToLower s = "refund" ∧ d.val > 50 then ⟨true, some "High value refund"⟩
        else if jsToLower s = "void" ∧ d.val > 100 then ⟨true, some "High value void"⟩
        else if jsToLower s = "no sale" then ⟨true, some "No sale transaction"⟩
        else ⟨true, some "Suspicious transaction type"⟩
      else if d.val > 200 then ⟨true, some "High value transaction"⟩
      else ⟨false, none⟩) := by
  simp only [flagTransactionCore, jsGt_eq_val]
  generalize jsToLower s = t
  by_cases h1 : t = "refund"
  · subst h1
    simp [flagTransactionCore, suspiciousTypes, jsGt_eq_val, gt_iff_lt]
  · by_cases h2 : t = "void"
    · subst h2
      simp [flagTransactionCore, suspiciousTypes, jsGt_eq_val, gt_iff_lt]
    · by_cases h3 : t = "no sale"
      · subst h3
        simp [flagTransactionCore, suspiciousTypes, jsGt_eq_val, gt_iff_lt]
      · by_cases h4 : t = "cancellation"
        · subst h4
          simp [flagTransactionCore, suspiciousTypes, jsGt_eq_val, gt_iff_lt]
        · by_cases h5 : t = "manual discount"
          · subst h5
            simp [flagTransactionCore, suspiciousTypes, jsGt_eq_val, gt_iff_lt]
          · have e1 : (t == "refund") = false := beq_eq_false_iff_ne.mpr h1
            have e2 : (t == "void") = false := beq_eq_false_iff_ne.mpr h2
            have e3 : (t == "no sale") = false := beq_eq_false_iff_ne.mpr h3
            have e4 : (t == "cancellation") = false := beq_eq_false_iff_ne.mpr h4
            have e5 : (t == "manual discount") = false := beq_eq_false_iff_ne.mpr h5
            simp [suspiciousTypes, List.contains, List.elem, gt_iff_lt,
              e1, e2, e3, e4, e5, h1, h2, h3, h4, h5]

/-- C10: a row with no transaction-type field does not make the flagging
function fail: the missing type is outside the suspicious set, and the
row is flagged "High value transaction" exactly when the cleaned gross
amount exceeds 200, otherwise not flagged. -/
theorem flagTransaction_missing_type (r : Row)
    (h1 : rowGet r "Tran Type" = none) (h2 : rowGet r "transactionType" = none) :
    flagTransaction r =
      (if jsGt (cleanAmount (jsOr (rowGet r "Gross") (rowGet r "amount"))) 200
       then ⟨true, some "High value transaction"⟩ else ⟨false, none⟩) ∧
    (∀ d : Dec, cleanAmount (jsOr (rowGet r "Gross") (rowGet r "amount")) = JsNum.num d →
       flagTransaction r =
         if d.val > 200 then ⟨true, some "High value transaction"⟩ else ⟨false, none⟩) := by
  have hmain : flagTransaction r =
      if jsGt (cleanAmount (jsOr (rowGet r "Gross") (rowGet r "amount"))) 200
      then ⟨true, some "High value transaction"⟩ else ⟨false, none⟩ := by
    simp [flagTransaction, h1, h2, jsOr, truthy, flagTransactionCore]
  refine ⟨hmain, ?_⟩
  intro d hd
  rw [hmain, hd, jsGt_eq_val]
  simp [gt_iff_lt]

/-- C10 witness: a concrete row with no type and amount `$250.00` is
flagged "High value transaction". -/
theorem flagTransaction_missing_type_witness :
    flagTransaction [("amount", "$250.00")] = ⟨true, some "High value transaction"⟩ := by
  have h := (flagTransaction_missing_type [("amount", "$250.00")]
    (by decide) (by decide)).1
  exact h.trans (by decide)

/-- C7 counterexample: cleaning the non-numeric amount string `"abc"`
yields NaN, which is not the number 0 — the claim's "parse failure
yields 0" is false as stated. -/
theorem cleanAmount_parse_failure_counterexample :
    cleanAmount (some "abc") = JsNum.nan ∧ JsNum.nan ≠ JsNum.num ⟨0, 0⟩ := by decide

/-- C7 (amended): stripping `$` and `,` makes `"$1,234.56"` parse to the
exact value 1234.56; a string that does not parse as a number yields
NaN (not 0), and NaN behaves exactly like the amount 0 in every flagging
decision (no threshold comparison succeeds); no exception is possible. -/
theorem cleanAmount_spec :
    (cleanAmount (some "$1,234.56") = JsNum.num ⟨123456, -2⟩ ∧
      Dec.val ⟨123456, -2⟩ = (1234.56 : ℚ)) ∧
    cleanAmount (some "abc") = JsNum.nan ∧
    (∀ tranType : Option String,
      flagTransactionCore tranType JsNum.nan =
        flagTransactionCore tranType (JsNum.num ⟨0, 0⟩)) := by
  refine ⟨⟨by decide, ?_⟩, by decide, ?_⟩
  · norm_num [Dec.val]
  · intro tranType
    have g50 : jsGt (JsNum.num ⟨0, 0⟩) 50 = false := by decide
    have g100 : jsGt (JsNum.num ⟨0, 0⟩) 100 = false := by decide
    have g200 : jsGt (JsNum.num ⟨0, 0⟩) 200 = false := by decide
    cases tranType with
    | none => decide
    | some t => simp [flagTransactionCore, jsGt, g50, g100, g200]

/-- C2 counterexample: the spec's 2-row CSV example (`type: refund,
amount: $75.00` and `type: sale, amount: $10.00`) creates zero
transactions in the latest upload handler, not two: unflagged rows are
never persisted, and neither raw row is flagged (the flagging function
reads `'Tran Type'`/`transactionType`, which these rows do not carry). -/
theorem processRows_example_counterexample :
    processRows [[("type", "refund"), ("amount", "$75.00")],
      [("type", "sale"), ("amount", "$10.00")]] = [] ∧
    flagTransaction [("type", "refund"), ("amount", "$75.00")] = ⟨false, none⟩ := by
  decide

/-- C2 (amended): the row loop of the upload handler persists exactly
the rows the flagging function (applied to the raw row) flags, in
order, each with `isFlagged` true, the flag reason, and status
"pending"; unflagged rows are not persisted at all. -/
theorem processRows_only_flagged (rows : List Row) :
    processRows rows =
      (rows.filter (fun r => (flagTransaction r).isFlagged)).map
        (fun r => { buildTransactionData r with
                    isFlagged := true
                    flagReason := (flagTransaction r).reason }) ∧
    (processRows rows).all (fun t => t.status == "pending") = true := by
  have hstatus : ∀ r : Row, (buildTransactionData r).status = "pending" := by
    intro r
    by_cases h : ((truthy (rowGet r "Tran Date")).isSome &&
        (truthy (rowGet r "Tran Type")).isSome) = true
    · simp [buildTransactionData, h]
    · simp [buildTransactionData, h]
  have hmain : processRows rows =
      (rows.filter (fun r => (flagTransaction r).isFlagged)).map
        (fun r => { buildTransactionData r with
                    isFlagged := true
                    flagReason := (flagTransaction r).reason }) := by
    induction rows with
    | nil => rfl
    | cons r rs ih =>
      by_cases h : (flagTransaction r).isFlagged
      · simp [processRows, List.filterMap_cons, processRow, h, List.filter_cons,
          List.map_cons] at ih ⊢
        exact ih
      · simp [processRows, List.filterMap_cons, processRow, h, List.filter_cons] at ih ⊢
        exact ih
  refine ⟨hmain, ?_⟩
  rw [hmain, List.all_eq_true]
  intro t ht
  rcases List.mem_map.mp ht with ⟨r, _, hrt⟩
  rw [← hrt]
  simpa using hstatus r

/-- C3 counterexample: updating the status of a nonexistent transaction
id (id 1 against an empty store) does not fail with NotFound — it
returns no transaction and still appends an audit entry, so the audit
log does not stay unchanged. -/
theorem updateTransactionStatus_missing_counterexample :
    (updateTransactionStatus ⟨[], []⟩ 1 "approved" "manager" "Store Manager").2 = none ∧
    (updateTransactionStatus ⟨[], []⟩ 1 "approved" "manager" "Store Manager").1.auditLogs =
      [⟨1, "approved", "approved", none, "manager", "Store Manager",
        "Transaction status changed to approved"⟩] := by
  decide

theorem map_update_missing_id (l : List DbTransaction) (id : Nat) (status : String)
    (h : ∀ t ∈ l, t.id ≠ id) :
    (l.map fun t => if t.id = id then { t with status := status } else t) = l := by
  induction l with
  | nil => rfl
  | cons a as ih =>
    simp only [List.map_cons]
    rw [if_neg (h a (List.mem_cons_self a as)),
      ih (fun t ht => h t (List.mem_cons_of_mem a ht))]

theorem find_missing_id (l : List DbTransaction) (id : Nat)
    (h : ∀ t ∈ l, t.id ≠ id) :
    l.find? (fun t => t.id == id) = none := by
  rw [List.find?_eq_none]
  intro t ht
  simpa using h t ht

/-- C3 (amended): the status-update operation on a nonexistent
transaction id does not fail: it leaves the transactions unchanged,
returns no transaction (`undefined`), and still appends exactly one
audit log entry recording the target status against the nonexistent
id. -/
theorem updateTransactionStatus_missing_id (st : StorageState) (id : Nat)
    (status performedBy performedByName : String)
    (h : ∀ t ∈ st.transactions, t.id ≠ id) :
    (updateTransactionStatus st id status performedBy performedByName).2 = none ∧
    (updateTransactionStatus st id status performedBy performedByName).1.transactions =
      st.transactions ∧
    (updateTransactionStatus st id status performedBy performedByName).1.auditLogs =
      st.auditLogs ++ [⟨id, status, status, none, performedBy, performedByName,
        "Transaction status changed to " ++ status⟩] := by
  refine ⟨?_, ?_, ?_⟩
  · simp only [updateTransactionStatus]
    rw [map_update_missing_id st.transactions id status h]
    exact find_missing_id st.transactions id h
  · simp only [updateTransactionStatus, createAuditLog]
    exact map_update_missing_id st.transactions id status h
  · simp [updateTransactionStatus, createAuditLog]

/-- C3 witness: the amended statement at the empty store and id 1. -/
theorem updateTransactionStatus_missing_id_witness :
    (updateTransactionStatus ⟨[], []⟩ 1 "approved" "m" "M").2 = none ∧
    (updateTransactionStatus ⟨[], []⟩ 1 "approved" "m" "M").1.transactions = [] ∧
    (updateTransactionStatus ⟨[], []⟩ 1 "approved" "m" "M").1.auditLogs =
      [] ++ [⟨1, "approved", "approved", none, "m", "M",
        "Transaction status changed to approved"⟩] :=
  updateTransactionStatus_missing_id ⟨[], []⟩ 1 "approved" "m" "M" (by decide)

/-- C4: every status update on an existing transaction appends exactly
one audit log entry whose `action` and `newStatus` equal the target
status, whose actor fields are the caller's identity, whose `details`
is the generated string, and whose `previousStatus` is not populated. -/
theorem updateTransactionStatus_audit_entry (st : StorageState) (id : Nat)
    (status performedBy performedByName : String)
    (h : ∃ t ∈ st.transactions, t.id = id) :
    (updateTransactionStatus st id status performedBy performedByName).1.auditLogs =
      st.auditLogs ++ [⟨id, status, status, none, performedBy, performedByName,
        "Transaction status changed to " ++ status⟩] := by
  simp [updateTransactionStatus, createAuditLog]

/-- C4 witness: a store holding transaction id 1, moved to "escalate",
gains exactly that audit entry. -/
theorem updateTransactionStatus_audit_entry_witness :
    (updateTransactionStatus
        ⟨[⟨1, "T1", 0, "R", "E", "sale", "10", "pending", false, none⟩], []⟩
        1 "escalate" "manager" "Store Manager").1.auditLogs =
      [] ++ [⟨1, "escalate", "escalate", none, "manager", "Store Manager",
        "Transaction status changed to escalate"⟩] :=
  updateTransactionStatus_audit_entry
    ⟨[⟨1, "T1", 0, "R", "E", "sale", "10", "pending", false, none⟩], []⟩
    1 "escalate" "manager" "Store Manager" (by decide)

/-- C5: the duplicate-upload guard.  A file whose content hash is
already in the seen set is rejected as a duplicate with no rows
processed and no transactions created, and the set is unchanged; a file
with an unseen hash gets its hash recorded, processing proceeds (on a
successful parse the row loop runs), and a second upload of
byte-identical content is then rejected with zero new transactions. -/
theorem uploadPos_duplicate_guard (hashFn : List Nat → String)
    (parseFn : List Nat → Except String (List Row))
    (seen : List String) (bytes : List Nat) :
    (hashFn bytes ∈ seen →
      uploadPos hashFn parseFn seen bytes = ⟨.duplicate, seen, []⟩) ∧
    (hashFn bytes ∉ seen →
      (uploadPos hashFn parseFn seen bytes).seenHashes = seen ++ [hashFn bytes] ∧
      (∀ rows, parseFn bytes = .ok rows →
        uploadPos hashFn parseFn seen bytes =
          ⟨.success, seen ++ [hashFn bytes], processRows rows⟩) ∧
      uploadPos hashFn parseFn (uploadPos hashFn parseFn seen bytes).seenHashes bytes =
        ⟨.duplicate, seen ++ [hashFn bytes], []⟩) := by
  constructor
  · intro hmem
    simp [uploadPos, hmem]
  · intro hmem
    have hsecond : hashFn bytes ∈ seen ++ [hashFn bytes] :=
      List.mem_append_right seen (List.mem_singleton.mpr rfl)
    refine ⟨?_, ?_, ?_⟩
    · cases hp : parseFn bytes with
      | error msg => simp [uploadPos, hmem, hp]
      | ok rows => simp [uploadPos, hmem, hp]
    · intro rows hp
      simp [uploadPos, hmem, hp]
    · cases hp : parseFn bytes with
      | error msg => simp [uploadPos, hmem, hp, hsecond]
      | ok rows => simp [uploadPos, hmem, hp, hsecond]

/-- C5 witness: a first upload of fresh bytes records the hash and a
byte-identical re-upload is rejected with no created transactions. -/
theorem uploadPos_duplicate_guard_witness :
    (uploadPos (fun _ => "h0") (fun _ => Except.ok []) [] [7]).seenHashes =
      [] ++ ["h0"] ∧
    uploadPos (fun _ => "h0") (fun _ => Except.ok [])
        (uploadPos (fun _ => "h0") (fun _ => Except.ok []) [] [7]).seenHashes [7] =
      ⟨.duplicate, [] ++ ["h0"], []⟩ := by
  have h := (uploadPos_duplicate_guard (fun _ => "h0")
    (fun _ => Except.ok []) [] [7]).2 (by decide)
  exact ⟨h.1, h.2.2⟩

/-- C9: when the duplicate check passes but the parse then fails, the
content hash stays recorded: the upload returns a parse failure with no
transactions created, the hash is in the seen set, and a byte-identical
re-upload is rejected as a duplicate instead of being parsed again. -/
theorem uploadPos_hash_kept_on_parse_error (hashFn : List Nat → String)
    (parseFn : List Nat → Except String (List Row))
    (seen : List String) (bytes : List Nat) (msg : String)
    (hp : parseFn bytes = .error msg) (hmem : hashFn bytes ∉ seen) :
    uploadPos hashFn parseFn seen bytes =
      ⟨.parseFailed msg, seen ++ [hashFn bytes], []⟩ ∧
    hashFn bytes ∈ (uploadPos hashFn parseFn seen bytes).seenHashes ∧
    uploadPos hashFn parseFn (uploadPos hashFn parseFn seen bytes).seenHashes bytes =
      ⟨.duplicate, seen ++ [hashFn bytes], []⟩ := by
  have hfirst : uploadPos hashFn parseFn seen bytes =
      ⟨.parseFailed msg, seen ++ [hashFn bytes], []⟩ := by
    simp [uploadPos, hmem, hp]
  have hsecond : hashFn bytes ∈ seen ++ [hashFn bytes] :=
    List.mem_append_right seen (List.mem_singleton.mpr rfl)
  refine ⟨hfirst, ?_, ?_⟩
  · rw [hfirst]
    exact hsecond
  · rw [hfirst]
    simp [uploadPos, hsecond]

/-- C9 witness: concrete failing parse (`error "bad"`) on fresh bytes,
followed by a rejected duplicate re-upload. -/
theorem uploadPos_hash_kept_on_parse_error_witness :
    uploadPos (fun _ => "h1") (fun _ => Except.error "bad") [] [3] =
      ⟨.parseFailed "bad", [] ++ ["h1"], []⟩ ∧
    "h1" ∈ (uploadPos (fun _ => "h1") (fun _ => Except.error "bad") [] [3]).seenHashes ∧
    uploadPos (fun _ => "h1") (fun _ => Except.error "bad")
        (uploadPos (fun _ => "h1") (fun _ => Except.error "bad") [] [3]).seenHashes [3] =
      ⟨.duplicate, [] ++ ["h1"], []⟩ :=
  uploadPos_hash_kept_on_parse_error (fun _ => "h1") (fun _ => Except.error "bad")
    [] [3] "bad" rfl (by decide)

/-- C6 counterexample: after the marker row, the data row `["x", ""]`
has a nonempty first field (not the header label, not a section title)
and an empty second field.  Under the claim's exclusion rule ("rows
whose first two positional fields are empty") it would be emitted, but
the source skips any row whose second positional field is empty, so the
parse result is empty. -/
theorem parseModiSoftData_claim_counterexample :
    parseModiSoftData [["Tran Date"], ["x", ""]] = [] ∧
    claimC6Rows [["Tran Date"], ["x", ""]] =
      [⟨"x", "", "", "", "", "", "", "", "", "", ""⟩] ∧
    parseModiSoftData [["Tran Date"], ["x", ""]] ≠
      claimC6Rows [["Tran Date"], ["x", ""]] := by
  decide

theorem specKeepRow_eq_modiKeepRow (r : List String) :
    specKeepRow r = modiKeepRow r := by
  simp only [specKeepRow, modiKeepRow, bne]
  cases h0 : (getCol r 0 == "") <;> cases h1 : (getCol r 1 == "") <;>
    simp [h0, h1, Bool.and_assoc, Bool.and_comm]

theorem parseModiLoop_true_eq (rs : List (List String)) :
    parseModiLoop true rs = (rs.filter modiKeepRow).map mkModiRow := by
  induction rs with
  | nil => rfl
  | cons r rs ih =>
    by_cases h : modiKeepRow r = true
    · simp [parseModiLoop, List.filter_cons, h, ih]
    · simp [parseModiLoop, List.filter_cons, h, ih]

theorem parseModiLoop_false_eq (rs : List (List String)) :
    parseModiLoop false rs =
      ((dropThroughMarker rs).filter modiKeepRow).map mkModiRow := by
  induction rs with
  | nil => rfl
  | cons r rs ih =>
    by_cases h : r.contains "Tran Date" = true
    · have hm : "Tran Date" ∈ r := by simpa using h
      simp [parseModiLoop, dropThroughMarker, h, hm, parseModiLoop_true_eq]
    · have hm : ¬("Tran Date" ∈ r) := by simpa using h
      simp [parseModiLoop, dropThroughMarker, h, hm, ih]

theorem dropThroughMarker_eq_nil (rows : List (List String))
    (h : (rows.all fun r => !(r.contains "Tran Date")) = true) :
    dropThroughMarker rows = [] := by
  induction rows with
  | nil => rfl
  | cons r rs ih =>
    rw [List.all_cons, Bool.and_eq_true] at h
    rw [dropThroughMarker, if_neg (by simpa using h.1)]
    exact ih h.2

/-- C6 (amended): the spreadsheet-dialect parser emits exactly the rows
after the first header-marker row, in order, mapped positionally onto
the fixed schema, excluding a row when EITHER of its first two
positional fields is empty, when its first field equals the header
label, or when its first field contains the section-title string; if no
row carries the marker the result is the empty sequence, not an
error. -/
theorem parseModiSoftData_spec (rows : List (List String)) :
    parseModiSoftData rows =
      ((dropThroughMarker rows).filter specKeepRow).map mkModiRow ∧
    ((rows.all fun r => !(r.contains "Tran Date")) = true →
      parseModiSoftData rows = []) := by
  have hmain : parseModiSoftData rows =
      ((dropThroughMarker rows).filter specKeepRow).map mkModiRow := by
    rw [parseModiSoftData, parseModiLoop_false_eq,
      List.filter_congr fun r _ => (specKeepRow_eq_modiKeepRow r).symm]
  refine ⟨hmain, fun h => ?_⟩
  rw [hmain, dropThroughMarker_eq_nil rows h]
  rfl

/-- C6 witness: a file with no header-marker row parses to the empty
sequence; and a file with a marker after two preamble rows emits
exactly its post-marker data rows in order. -/
theorem parseModiSoftData_spec_witness :
    parseModiSoftData [["a", "b"], ["c", "d"]] = [] ∧
    parseModiSoftData
        [["Report"], ["Summary", "x"], ["Date", "Tran Date", "extra"],
         ["7/8/25", "Refund", "Cash", "$75.00"], ["", "y"],
         ["Sale Transactions Total", "z"], ["7/8/25", "Sale", "Card", "$10.00"]] =
      ((dropThroughMarker
        [["Report"], ["Summary", "x"], ["Date", "Tran Date", "extra"],
         ["7/8/25", "Refund", "Cash", "$75.00"], ["", "y"],
         ["Sale Transactions Total", "z"],
         ["7/8/25", "Sale", "Card", "$10.00"]]).filter specKeepRow).map mkModiRow :=
  ⟨(parseModiSoftData_spec [["a", "b"], ["c", "d"]]).2 (by decide),
   (parseModiSoftData_spec
     [["Report"], ["Summary", "x"], ["Date", "Tran Date", "extra"],
      ["7/8/25", "Refund", "Cash", "$75.00"], ["", "y"],
      ["Sale Transactions Total", "z"], ["7/8/25", "Sale", "Card", "$10.00"]]).1⟩

/-- C8 counterexample: with 11 stored transactions all matching the
empty filters, the latest-revision listing route returns only 10 rows
(the storage default limit), although its own total count reports 11 —
it does not return the full matching set. -/
theorem routeGetTransactions_limit_counterexample :
    ((routeGetTransactions ((List.range 11).map fun i =>
        ⟨i, "T", i, "R", "E", "sale", "10", "approved", false, none⟩)
      none none none).1).length = 10 ∧
    (routeGetTransactions ((List.range 11).map fun i =>
        ⟨i, "T", i, "R", "E", "sale", "10", "approved", false, none⟩)
      none none none).2 = 11 := by
  decide

theorem all_insertDateDesc (p : DbTransaction → Bool) (t : DbTransaction)
    (l : List DbTransaction) :
    (insertDateDesc t l).all p = (p t && l.all p) := by
  induction l with
  | nil => simp [insertDateDesc]
  | cons u us ih =>
    by_cases h : u.date < t.date
    · simp [insertDateDesc, h]
    · simp only [insertDateDesc, if_neg h, List.all_cons, ih]
      cases p u <;> cases p t <;> simp

theorem all_sortDateDesc (p : DbTransaction → Bool) (l : List DbTransaction) :
    (sortDateDesc l).all p = l.all p := by
  induction l with
  | nil => rfl
  | cons t ts ih => simp [sortDateDesc, all_insertDateDesc, ih]

theorem all_filter_self (p : DbTransaction → Bool) (l : List DbTransaction) :
    (l.filter p).all p = true := by
  induction l with
  | nil => rfl
  | cons t ts ih =>
    by_cases h : p t = true
    · simp [List.filter_cons, h, ih]
    · simp [List.filter_cons, h, ih]

theorem all_take_of_all (p : DbTransaction → Bool) (l : List DbTransaction)
    (n : Nat) (h : l.all p = true) : (l.take n).all p = true := by
  induction l generalizing n with
  | nil => simp
  | cons t ts ih =>
    cases n with
    | zero => rfl
    | succ n =>
      rw [List.all_cons, Bool.and_eq_true] at h
      simp [List.take_succ_cons, h.1, ih n h.2]

/-- C8 (amended): the latest-revision listing route applies the
storage-layer defaults `limit = 10`, `offset = 0`: it returns the first
10 matching transactions in date-descending order (never more than 10),
every returned row matches the filters, and the accompanying total is
the count of ALL matching rows. -/
theorem routeGetTransactions_spec (db : List DbTransaction)
    (search tType stat : Option String) :
    (routeGetTransactions db search tType stat).1 =
      (sortDateDesc (db.filter (txMatches search tType stat))).take 10 ∧
    (routeGetTransactions db search tType stat).2 =
      (db.filter (txMatches search tType stat)).length ∧
    ((routeGetTransactions db search tType stat).1).all
      (txMatches search tType stat) = true ∧
    ((routeGetTransactions db search tType stat).1).length ≤ 10 := by
  have h1 : (routeGetTransactions db search tType stat).1 =
      (sortDateDesc (db.filter (txMatches search tType stat))).take 10 := by
    simp [routeGetTransactions, getTransactionsStorage]
  refine ⟨h1, by simp [routeGetTransactions, getTransactionsStorage], ?_, ?_⟩
  · rw [h1]
    exact all_take_of_all _ _ _
      ((all_sortDateDesc _ _).trans (all_filter_self _ _))
  · rw [h1]
    exact (List.length_take_le 10 _)
